import Mathlib

/-!
Verification of the SAM decoder prompt/decode protocol of this repository
(scripts/test_sam_decoder.py and scripts/generate_sam_embeddings.py),
as a shallow embedding in Lean 4.

Real-number quantities computed by the scripts in floating point
(coordinates, scale factors, logits) are modelled over `ℚ` with exact
arithmetic; integer quantities keep `ℤ`/`ℕ`.
-/

namespace Annota

/-! ## Prompt normalizer (test_sam_decoder.py, lines 51-64)

A parsed click is `(x, y, label)` with float coordinates and an int label
(`parse_click`).  `normalize` mirrors the main-function block:

    sam_scale = 1024.0 / max(args.image_width, args.image_height)
    clicks = [parse_click(c) for c in args.click]
    if not clicks:
        clicks = [(args.image_width/2, args.image_height/2, 1)]
    point_coords = np.zeros((1, len(clicks) + 1, 2), dtype=np.float32)
    point_labels = np.zeros((1, len(clicks) + 1), dtype=np.float32)
    for i, (x, y, lbl) in enumerate(clicks):
        point_coords[0, i, 0] = x * sam_scale
        point_coords[0, i, 1] = y * sam_scale
        point_labels[0, i] = float(lbl)
    point_labels[0, len(clicks)] = -1.0  # padding point

We model the single batch row (the leading dimension of size 1): the
zero-initialised arrays with rows `0..N-1` overwritten and row `N` left
at `(0,0)` / set to `-1` are exactly `map ++ [pad]`.  Python raises
`ZeroDivisionError` on `1024.0 / 0`, i.e. exactly when
`max(image_width, image_height) = 0`; this is the only failure of the
block, modelled as `none`. -/

structure Click where
  x : ℚ
  y : ℚ
  label : ℤ
  deriving Repr, DecidableEq

def samScale (w h : ℤ) : ℚ := 1024 / ((max w h : ℤ) : ℚ)

def normalize (clicks : List Click) (w h : ℤ) :
    Option (List (ℚ × ℚ) × List ℚ) :=
  if max w h = 0 then none
  else
    let s := samScale w h
    let cs := if clicks.isEmpty then [⟨(w : ℚ) / 2, (h : ℚ) / 2, 1⟩] else clicks
    some (cs.map (fun c => (c.x * s, c.y * s)) ++ [((0 : ℚ), (0 : ℚ))],
          cs.map (fun c => (c.label : ℚ)) ++ [(-1 : ℚ)])

/-! ## Embedding store (test_sam_decoder.py, line 49)

    emb = np.load(args.embedding).astype(np.float32)

We model a successfully parsed stored array by its shape and dtype (the
aspects the claims speak about).  The code performs no shape check of any
kind and unconditionally converts the dtype to float32 via `astype`. -/

inductive Dtype
  | float32
  | float64
  | int64
  deriving Repr, DecidableEq

structure StoredArray where
  shape : List ℕ
  dtype : Dtype
  deriving Repr, DecidableEq

def loadEmbedding (a : StoredArray) : StoredArray :=
  { shape := a.shape, dtype := Dtype.float32 }

/-! ## Mask postprocessor (test_sam_decoder.py, lines 87-98)

    mask = masks[0, 0]  # [H=256, W=256]
    binary = (mask > 0.0).astype(np.uint8) * 255
    Image.fromarray(binary).save(...)
    img_mask = Image.fromarray(binary).resize((args.image_width, args.image_height), Image.NEAREST)

A raster is a width, a height and a pixel function (row, col) ↦ value;
pixel values are `ℕ` (uint8 contents), logits are `ℚ`.

PIL `resize(size, Image.NEAREST)` maps destination pixel `d` of an axis to
source pixel `floor((d + 0.5) * srcSize / dstSize)` (Pillow routes NEAREST
resizing through an affine scale whose per-axis coordinate is accumulated
as `a[2] + a[0]*0.5 + d*a[0]` with `a[0] = srcSize/dstSize`, then floored).
Over `ℕ` that floor is the exact integer division
`((2*d + 1) * srcSize) / (2 * dstSize)`. -/

structure Raster where
  width : ℕ
  height : ℕ
  pix : ℕ → ℕ → ℕ

def thresholdPixel (logit : ℚ) : ℕ :=
  if logit > 0 then 255 else 0

def nativeMask (logits : ℕ → ℕ → ℚ) : Raster :=
  { width := 256, height := 256,
    pix := fun r c => thresholdPixel (logits r c) }

def nnIndex (d srcSize dstSize : ℕ) : ℕ :=
  ((2 * d + 1) * srcSize) / (2 * dstSize)

def nnResize (src : Raster) (w h : ℕ) : Raster :=
  { width := w, height := h,
    pix := fun r c => src.pix (nnIndex r src.height h) (nnIndex c src.width w) }

def postprocess (logits : ℕ → ℕ → ℚ) (w h : ℕ) : Raster × Raster :=
  let native := nativeMask logits
  (native, nnResize native w h)

/-! ## Decoder invocation adapter (test_sam_decoder.py, lines 79-85)

    out = sess.run(None, feeds)
    if isinstance(out, list) and len(out) >= 1:
        masks = out[0]
    else:
        masks = sess.run(["masks"], feeds)[0]

`sess.run(None, feeds)` yields the session's positional output list;
`sess.run(["masks"], feeds)` looks an output up by name and raises an
engine error when no output is named "masks".  A session is modelled by
those two observable pieces; output names are an inductive type.  The
resolver takes the positional branch whenever the positional list is
non-empty and otherwise falls back to the named lookup, whose failure
surfaces as the engine error (`DecodeError`). -/

inductive OutName
  | masks
  | iouPredictions
  | lowResMasks
  deriving Repr, DecidableEq

structure Session (T : Type) where
  outputs : List T
  named : OutName → Option T

inductive DecodeError
  | noOutputNamedMasks
  deriving Repr, DecidableEq

def resolveMask {T : Type} (s : Session T) : Except DecodeError T :=
  match s.outputs with
  | t :: _ => Except.ok t
  | [] =>
    match s.named OutName.masks with
    | some t => Except.ok t
    | none => Except.error DecodeError.noOutputNamedMasks

/-- Modelled from the spec (§4.4/§9): the resolution order the spec
prescribes — "attempt named-output lookup first, fall back to positional
index 0" — for comparison with `resolveMask`, the order the code uses. -/
def resolveMaskNamedFirst {T : Type} (s : Session T) : Except DecodeError T :=
  match s.named OutName.masks with
  | some t => Except.ok t
  | none =>
    match s.outputs with
    | t :: _ => Except.ok t
    | [] => Except.error DecodeError.noOutputNamedMasks

/-! ## Embedding generation run (generate_sam_embeddings.py, lines 103-140)

Per image the loop: reads the image (`cv2.imread` returns `None` for an
unreadable file — warn and `continue`, no exception), computes the
embedding and saves the `.npy` (any exception propagates and aborts the
run), then writes the sidecar JSON inside `try/except` (a failure is
demoted to a warning), and finally increments `count`.  The external
stage outcomes are data of the job; error payloads are `ℕ` codes so that
"propagates unchanged" is expressible. -/

structure ImageJob where
  name : ℕ
  readable : Bool
  embedResult : Except ℕ Unit
  saveResult : Except ℕ Unit
  sidecarResult : Except ℕ Unit

structure RunState where
  count : ℕ
  written : List ℕ
  warnings : List ℕ
  deriving Repr, DecidableEq

def processOne (job : ImageJob) (st : RunState) : Except ℕ RunState :=
  if job.readable = false then
    Except.ok { st with warnings := st.warnings ++ [job.name] }
  else
    match job.embedResult with
    | Except.error e => Except.error e
    | Except.ok _ =>
      match job.saveResult with
      | Except.error e => Except.error e
      | Except.ok _ =>
        let st1 : RunState := { st with written := st.written ++ [job.name] }
        let st2 : RunState :=
          match job.sidecarResult with
          | Except.error _ => { st1 with warnings := st1.warnings ++ [job.name] }
          | Except.ok _ => st1
        Except.ok { st2 with count := st2.count + 1 }

def processAll (jobs : List ImageJob) (st : RunState) : Except ℕ RunState :=
  match jobs with
  | [] => Except.ok st
  | job :: rest =>
    match processOne job st with
    | Except.error e => Except.error e
    | Except.ok st2 => processAll rest st2

/-! ## Theorems -/

/-- C1: for every image width `w > 0` and height `h > 0` and every supplied
prompt `(x, y, label)`, the prompt normalizer computes the single uniform
scale factor `s = 1024 / max(w, h)` and maps the prompt to the scaled
coordinate `(x*s, y*s)` with the label copied verbatim. -/
theorem normalize_scales_prompts (w h : ℤ) (clicks : List Click)
    (hw : 0 < w) (hh : 0 < h) :
    ∃ coords labels, normalize clicks w h = some (coords, labels) ∧
      ∀ i (hi : i < clicks.length),
        coords[i]? = some (clicks[i].x * samScale w h, clicks[i].y * samScale w h) ∧
        labels[i]? = some ((clicks[i].label : ℚ)) := by
  have hmax : max w h ≠ 0 := (lt_max_of_lt_left hw).ne'
  rcases eq_or_ne clicks [] with rfl | hne
  · refine ⟨[((w : ℚ) / 2 * samScale w h, (h : ℚ) / 2 * samScale w h), (0, 0)],
           [1, -1], ?_, fun i hi => by simp at hi⟩
    simp [normalize, hmax]
  · have hemp : clicks.isEmpty = false := by simpa using hne
    refine ⟨clicks.map (fun c => (c.x * samScale w h, c.y * samScale w h)) ++ [(0, 0)],
            clicks.map (fun c => ((c.label : ℚ))) ++ [-1], ?_, ?_⟩
    · simp [normalize, hmax, hemp]
    · intro i hi
      constructor
      · rw [List.getElem?_append_left (by simpa using hi), List.getElem?_map,
            List.getElem?_eq_getElem hi]
        rfl
      · rw [List.getElem?_append_left (by simpa using hi), List.getElem?_map,
            List.getElem?_eq_getElem hi]
        rfl

/-- Witness for C1, Scenario A: image 640×480, one click `(320, 240, label 1)`;
the scale is `1024/640 = 8/5 = 1.6` and the scaled coordinate `(512, 384)`. -/
theorem normalize_scales_prompts_witness :
    samScale 640 480 = 8 / 5 ∧
    normalize [⟨320, 240, 1⟩] 640 480 = some ([(512, 384), (0, 0)], [1, -1]) ∧
    (∃ coords labels, normalize [⟨320, 240, 1⟩] 640 480 = some (coords, labels) ∧
      ∀ i (hi : i < ([⟨320, 240, 1⟩] : List Click).length),
        coords[i]? = some (([⟨320, 240, 1⟩] : List Click)[i].x * samScale 640 480,
                           ([⟨320, 240, 1⟩] : List Click)[i].y * samScale 640 480) ∧
        labels[i]? = some ((([⟨320, 240, 1⟩] : List Click)[i].label : ℚ))) :=
  ⟨by norm_num [samScale],
   by norm_num [normalize, samScale],
   normalize_scales_prompts 640 480 [⟨320, 240, 1⟩] (by norm_num) (by norm_num)⟩

/-- C2: for every list of `N ≥ 1` supplied prompts (no box prompt exists in
this path), the point-coordinate and point-label arrays built by the prompt
normalizer both have exactly `N + 1` rows, and the final row is the synthetic
padding entry with coordinate `(0, 0)` and label `-1`. -/
theorem normalize_padding_invariant (w h : ℤ) (clicks : List Click)
    (hw : 0 < w) (hh : 0 < h) (hne : clicks ≠ []) :
    ∃ coords labels, normalize clicks w h = some (coords, labels) ∧
      coords.length = clicks.length + 1 ∧
      labels.length = clicks.length + 1 ∧
      coords.getLast? = some (0, 0) ∧
      labels.getLast? = some (-1) := by
  have hmax : max w h ≠ 0 := (lt_max_of_lt_left hw).ne'
  have hemp : clicks.isEmpty = false := by simpa using hne
  refine ⟨clicks.map (fun c => (c.x * samScale w h, c.y * samScale w h)) ++ [(0, 0)],
          clicks.map (fun c => ((c.label : ℚ))) ++ [-1], ?_, ?_, ?_, ?_, ?_⟩
  · simp [normalize, hmax, hemp]
  · simp
  · simp
  · exact List.getLast?_concat _
  · exact List.getLast?_concat _

/-- Witness for C2, Scenario C: two clicks with labels `1` and `0` yield
point arrays of length `3` whose final entry is the padding `(0,0)` / `-1`. -/
theorem normalize_padding_invariant_witness :
    (∃ coords labels,
      normalize [⟨10, 20, 1⟩, ⟨30, 40, 0⟩] 640 480 = some (coords, labels) ∧
      coords.length = 3 ∧ labels.length = 3 ∧
      coords.getLast? = some (0, 0) ∧ labels.getLast? = some (-1)) ∧
    normalize [⟨10, 20, 1⟩, ⟨30, 40, 0⟩] 640 480 =
      some ([(16, 32), (48, 64), (0, 0)], [1, 0, -1]) :=
  ⟨normalize_padding_invariant 640 480 [⟨10, 20, 1⟩, ⟨30, 40, 0⟩]
      (by norm_num) (by norm_num) (by simp),
   by norm_num [normalize, samScale]⟩

/-- C3: when the supplied prompt list is empty, the normalizer synthesizes a
single default positive prompt (label `1`) at the image center `(w/2, h/2)`
before scaling and padding, so the point arrays have exactly 2 rows. -/
theorem normalize_empty_center (w h : ℤ) (hw : 0 < w) (hh : 0 < h) :
    normalize [] w h =
      some ([((w : ℚ) / 2 * samScale w h, (h : ℚ) / 2 * samScale w h), (0, 0)],
            [1, -1]) := by
  have hmax : max w h ≠ 0 := (lt_max_of_lt_left hw).ne'
  simp [normalize, hmax]

/-- Witness for C3 at a 640×480 image: the synthesized center prompt is
`(320, 240)`, scaled to `(512, 384)`, and the arrays have 2 rows. -/
theorem normalize_empty_center_witness :
    normalize [] 640 480 =
      some ([(((640 : ℤ) : ℚ) / 2 * samScale 640 480,
              ((480 : ℤ) : ℚ) / 2 * samScale 640 480), (0, 0)], [1, -1]) ∧
    normalize [] 640 480 = some ([(512, 384), (0, 0)], [1, -1]) :=
  ⟨normalize_empty_center 640 480 (by norm_num) (by norm_num),
   by norm_num [normalize, samScale]⟩

/-- Counterexample for C4: the normalizer performs no validation at all.
With label `5 ∉ {-1, 0, 1}` it still builds the point arrays (copying the
out-of-range label verbatim), and with negative width `-3` and height `-4`
it also proceeds, producing negatively scaled coordinates — it never raises
a `ValidationError`. -/
theorem normalize_no_validation_cex :
    (¬ ((5 : ℤ) = -1 ∨ (5 : ℤ) = 0 ∨ (5 : ℤ) = 1)) ∧
    normalize [⟨320, 240, 5⟩] 640 480 = some ([(512, 384), (0, 0)], [5, -1]) ∧
    normalize [⟨2, 2, 1⟩] (-3) (-4) =
      some ([(-2048 / 3, -2048 / 3), (0, 0)], [1, -1]) := by
  refine ⟨by norm_num, ?_, ?_⟩
  · norm_num [normalize, samScale]
  · norm_num [normalize, samScale]

/-- C4 amended: the prompt normalizer validates nothing. It fails only when
`max(w, h) = 0` (the Python `ZeroDivisionError` on `1024.0 / 0`, not a
`ValidationError`); for every other input — including zero or negative
dimensions and labels outside `{-1, 0, 1}` — it proceeds to build the point
arrays, copying every label verbatim. -/
theorem normalize_no_validation (w h : ℤ) (clicks : List Click) :
    (max w h = 0 → normalize clicks w h = none) ∧
    (max w h ≠ 0 → clicks ≠ [] →
      normalize clicks w h =
        some (clicks.map (fun c => (c.x * samScale w h, c.y * samScale w h)) ++ [(0, 0)],
              clicks.map (fun c => ((c.label : ℚ))) ++ [-1])) := by
  constructor
  · intro hmax
    simp [normalize, hmax]
  · intro hmax hne
    have hemp : clicks.isEmpty = false := by simpa using hne
    simp [normalize, hmax, hemp]

/-- Witness for C4 amended: the out-of-range label `5` and a negative-height
image both pass straight through the normalizer. -/
theorem normalize_no_validation_witness :
    normalize [⟨320, 240, 5⟩] 640 (-480) =
      some ([(320 * samScale 640 (-480), 240 * samScale 640 (-480)), (0, 0)],
            [(5 : ℚ), -1]) := by
  have := (normalize_no_validation 640 (-480) [⟨320, 240, 5⟩]).2 (by norm_num) (by simp)
  simpa using this

/-- Counterexample for C5: loading an embedding never fails with a
`ShapeError`. A stored array of shape `[1, 128, 64, 64]` — which deviates
from the expected `[1, 256, 64, 64]` contract — is accepted unchanged in
shape, and its dtype is silently converted to float32 by `astype` instead
of being a hard error. -/
theorem loadEmbedding_wrong_shape_cex :
    loadEmbedding ⟨[1, 128, 64, 64], Dtype.float64⟩ =
      ⟨[1, 128, 64, 64], Dtype.float32⟩ ∧
    ([1, 128, 64, 64] : List ℕ) ≠ [1, 256, 64, 64] := by
  exact ⟨rfl, by decide⟩

/-- C5 amended: the embedding loader performs no shape or dtype validation:
for every successfully parsed stored array it returns the array with its
shape unchanged — whatever that shape is — and its dtype silently converted
to float32. No `ShapeError` exists in the loading path. -/
theorem loadEmbedding_no_shape_check (a : StoredArray) :
    (loadEmbedding a).shape = a.shape ∧
    (loadEmbedding a).dtype = Dtype.float32 :=
  ⟨rfl, rfl⟩

/-- C6: for every logit the postprocessor classifies a pixel of the native
mask as foreground (`255`) iff the logit is strictly greater than `0`, and
as background (`0`) otherwise; in particular a logit of exactly `0` maps to
`0`, `-0.001` maps to `0`, `0.001` maps to `255`, and every pixel of the
native mask is one of `{0, 255}`. -/
theorem nativeMask_threshold (logits : ℕ → ℕ → ℚ) (r c : ℕ) :
    ((nativeMask logits).pix r c = 255 ↔ 0 < logits r c) ∧
    ((nativeMask logits).pix r c = 0 ↔ ¬ 0 < logits r c) ∧
    ((nativeMask logits).pix r c = 0 ∨ (nativeMask logits).pix r c = 255) ∧
    thresholdPixel 0 = 0 ∧
    thresholdPixel (-(1 / 1000)) = 0 ∧
    thresholdPixel (1 / 1000) = 255 := by
  refine ⟨?_, ?_, ?_, by norm_num [thresholdPixel], by norm_num [thresholdPixel],
          by norm_num [thresholdPixel]⟩ <;>
    simp only [nativeMask, thresholdPixel] <;> split <;> simp_all

/-- C7: for every image width `w > 0` and height `h > 0`, the native mask is
exactly 256×256, the full-size mask has dimensions `(w, h)`, and the
full-size mask is precisely the nearest-neighbor resampling of the
already-thresholded native mask — it is never recomputed from the raw
logits. -/
theorem postprocess_dims_resample (logits : ℕ → ℕ → ℚ) (w h : ℕ)
    (hw : 0 < w) (hh : 0 < h) :
    (postprocess logits w h).1.width = 256 ∧
    (postprocess logits w h).1.height = 256 ∧
    (postprocess logits w h).2.width = w ∧
    (postprocess logits w h).2.height = h ∧
    (postprocess logits w h).2 = nnResize (postprocess logits w h).1 w h :=
  ⟨rfl, rfl, rfl, rfl, rfl⟩

/-- Witness for C7 at a 640×480 image and the constant logit map `1`. -/
theorem postprocess_dims_resample_witness :
    (0 : ℕ) < 640 ∧ (0 : ℕ) < 480 ∧
    ((postprocess (fun _ _ => (1 : ℚ)) 640 480).1.width = 256 ∧
     (postprocess (fun _ _ => (1 : ℚ)) 640 480).1.height = 256 ∧
     (postprocess (fun _ _ => (1 : ℚ)) 640 480).2.width = 640 ∧
     (postprocess (fun _ _ => (1 : ℚ)) 640 480).2.height = 480 ∧
     (postprocess (fun _ _ => (1 : ℚ)) 640 480).2 =
       nnResize (postprocess (fun _ _ => (1 : ℚ)) 640 480).1 640 480) :=
  ⟨by norm_num, by norm_num,
   postprocess_dims_resample (fun _ _ => (1 : ℚ)) 640 480 (by norm_num) (by norm_num)⟩

/-- A concrete binary 256×256 raster used to exhibit information loss when
downscaling: a single foreground pixel at `(128, 128)`. -/
def singlePixelMask : Raster :=
  { width := 256, height := 256,
    pix := fun r c => if r = 128 ∧ c = 128 then 255 else 0 }

/-- Counterexample for C8: the nearest-neighbor round trip does not
reproduce the native mask for every target size `w, h > 0`. For the target
size `1×1`, the full-size mask collapses to the single source pixel
`(128, 128)`, and resampling it back to 256×256 yields `255` at `(0, 0)`
where the native mask holds `0`. -/
theorem nnResize_roundtrip_cex :
    (0 : ℕ) < 1 ∧
    singlePixelMask.width = 256 ∧ singlePixelMask.height = 256 ∧
    (nnResize (nnResize singlePixelMask 1 1) 256 256).pix 0 0 = 255 ∧
    singlePixelMask.pix 0 0 = 0 := by
  refine ⟨by norm_num, rfl, rfl, ?_, by norm_num [singlePixelMask]⟩
  norm_num [nnResize, nnIndex, singlePixelMask]

/-- Composing the two nearest-neighbor index maps of an upscale-then-downscale
round trip is the identity on `[0, 256)` whenever the intermediate size is at
least 256. -/
theorem nnIndex_roundtrip (i s : ℕ) (hs : 256 ≤ s) (hi : i < 256) :
    nnIndex (nnIndex i s 256) 256 s = i := by
  have h512 : (0 : ℕ) < 2 * 256 := by norm_num
  have hj1 : ((2 * i + 1) * s) / (2 * 256) * (2 * 256) ≤ (2 * i + 1) * s :=
    Nat.div_mul_le_self _ _
  have hj2 : (2 * i + 1) * s < (((2 * i + 1) * s) / (2 * 256) + 1) * (2 * 256) := by
    have hm := Nat.div_add_mod ((2 * i + 1) * s) (2 * 256)
    have hlt : (2 * i + 1) * s % (2 * 256) < 2 * 256 := Nat.mod_lt _ h512
    nlinarith [hm, hlt]
  unfold nnIndex
  apply Nat.div_eq_of_lt_le
  · nlinarith [hj2, hs]
  · rcases Nat.eq_or_lt_of_le hs with hseq | hslt
    · subst hseq
      have hj : (2 * i + 1) * 256 / (2 * 256) = i := by omega
      rw [hj]
      nlinarith
    · nlinarith [hj1, hslt]

/-- C8 amended: for every binary native 256×256 mask and every target size
`(w, h)` with `w ≥ 256` and `h ≥ 256` (an upscale on both axes), resampling
the full-size mask back down to 256×256 via nearest-neighbor reproduces the
native mask exactly, pixel for pixel; for strictly smaller targets the
downscale discards pixels and the round trip can differ. -/
theorem nnResize_roundtrip_of_upscale (m : Raster) (w h : ℕ)
    (hmw : m.width = 256) (hmh : m.height = 256)
    (hw : 256 ≤ w) (hh : 256 ≤ h) :
    (nnResize (nnResize m w h) 256 256).width = 256 ∧
    (nnResize (nnResize m w h) 256 256).height = 256 ∧
    ∀ r c, r < 256 → c < 256 →
      (nnResize (nnResize m w h) 256 256).pix r c = m.pix r c := by
  refine ⟨rfl, rfl, fun r c hr hc => ?_⟩
  simp only [nnResize, hmw, hmh]
  rw [nnIndex_roundtrip r h hh hr, nnIndex_roundtrip c w hw hc]

/-- Witness for C8 amended: the single-pixel mask survives a round trip
through 640×480 (an upscale on both axes) at pixel `(128, 128)`. -/
theorem nnResize_roundtrip_of_upscale_witness :
    (256 : ℕ) ≤ 640 ∧ (256 : ℕ) ≤ 480 ∧
    ((nnResize (nnResize singlePixelMask 640 480) 256 256).width = 256 ∧
     (nnResize (nnResize singlePixelMask 640 480) 256 256).height = 256 ∧
     ∀ r c, r < 256 → c < 256 →
       (nnResize (nnResize singlePixelMask 640 480) 256 256).pix r c =
         singlePixelMask.pix r c) :=
  ⟨by norm_num, by norm_num,
   nnResize_roundtrip_of_upscale singlePixelMask 640 480 rfl rfl
     (by norm_num) (by norm_num)⟩

/-- Counterexample for C9: the adapter does not attempt the named-output
lookup first. On a session whose positional list is `[0]` while the output
named `masks` is `1`, the code resolves the mask to positional index 0
(value `0`), whereas the named-first resolution the claim describes would
yield `1`. -/
theorem resolveMask_positional_first_cex :
    resolveMask ⟨[0], fun n => if n = OutName.masks then some 1 else none⟩ =
      Except.ok 0 ∧
    resolveMaskNamedFirst
        ⟨[0], fun n => if n = OutName.masks then some 1 else none⟩ =
      Except.ok 1 ∧
    (Except.ok 0 : Except DecodeError ℕ) ≠ Except.ok 1 := by
  exact ⟨rfl, rfl, by simp⟩

/-- C9 amended: the adapter resolves the mask output deterministically by
attempting positional index 0 first and falling back to a named-output
lookup under the name `masks`; a decoder graph returning only a single
output tensor (no quality score) still has its mask resolved from index 0,
and when neither convention is satisfiable — empty positional list and no
output named `masks` — the adapter fails with a `DecodeError`. -/
theorem resolveMask_resolution (s : Session ℕ) :
    (∀ t rest, s.outputs = t :: rest → resolveMask s = Except.ok t) ∧
    (∀ t, s.outputs = [] → s.named OutName.masks = some t →
      resolveMask s = Except.ok t) ∧
    (s.outputs = [] → s.named OutName.masks = none →
      resolveMask s = Except.error DecodeError.noOutputNamedMasks) := by
  refine ⟨fun t rest hout => ?_, fun t hout hn => ?_, fun hout hn => ?_⟩
  · simp [resolveMask, hout]
  · simp [resolveMask, hout, hn]
  · simp [resolveMask, hout, hn]

/-- Witness for C9 amended, Scenario D: a decoder returning only one output
tensor (no quality score) still resolves the mask from index 0; a session
with no outputs at all fails with the `DecodeError`. -/
theorem resolveMask_resolution_witness :
    resolveMask ⟨[7], fun _ => none⟩ = Except.ok 7 ∧
    resolveMask (⟨[], fun _ => none⟩ : Session ℕ) =
      Except.error DecodeError.noOutputNamedMasks :=
  ⟨(resolveMask_resolution ⟨[7], fun _ => none⟩).1 7 [] rfl,
   (resolveMask_resolution ⟨[], fun _ => none⟩).2.2 rfl rfl⟩

/-- C10: a failure while writing the provenance sidecar metadata file is a
soft warning only. For every image whose embedding file was written, a
sidecar-write failure leaves the embedding in the written set, does not
abort the run (the remaining jobs are still processed from the updated
state), and the image is still counted as successfully processed; an error
from the embedding-computation or embedding-save stage propagates unchanged
as the run's error. -/
theorem sidecar_failure_soft (job : ImageJob) (st : RunState) :
    (∀ e, job.readable = true → job.embedResult = Except.ok () →
      job.saveResult = Except.ok () → job.sidecarResult = Except.error e →
      ∃ st2, processOne job st = Except.ok st2 ∧
        st2.count = st.count + 1 ∧
        job.name ∈ st2.written ∧
        ∀ rest, processAll (job :: rest) st = processAll rest st2) ∧
    (∀ e, job.readable = true → job.embedResult = Except.error e →
      processOne job st = Except.error e) ∧
    (∀ e, job.readable = true → job.embedResult = Except.ok () →
      job.saveResult = Except.error e →
      processOne job st = Except.error e) := by
  refine ⟨fun e hr he hs hsc => ?_, fun e hr he => ?_, fun e hr he hs => ?_⟩
  · refine ⟨⟨st.count + 1, st.written ++ [job.name], st.warnings ++ [job.name]⟩,
           ?_, ?_, ?_, ?_⟩
    · simp [processOne, hr, he, hs, hsc]
    · rfl
    · simp
    · intro rest
      simp only [processAll]
      rw [show processOne job st =
            Except.ok ⟨st.count + 1, st.written ++ [job.name],
                       st.warnings ++ [job.name]⟩ by
        simp [processOne, hr, he, hs, hsc]]
  · simp [processOne, hr, he]
  · simp [processOne, hr, he, hs]

/-- Witness for C10: a run of two jobs whose first job's sidecar write fails
still writes and counts both embeddings, while an embed failure propagates
its error code unchanged. -/
theorem sidecar_failure_soft_witness :
    (∃ st2, processOne ⟨5, true, Except.ok (), Except.ok (), Except.error 9⟩
        ⟨0, [], []⟩ = Except.ok st2 ∧
      st2.count = 0 + 1 ∧
      (5 : ℕ) ∈ st2.written ∧
      ∀ rest, processAll (⟨5, true, Except.ok (), Except.ok (), Except.error 9⟩ :: rest)
          ⟨0, [], []⟩ = processAll rest st2) ∧
    processOne ⟨6, true, Except.error 3, Except.ok (), Except.ok ()⟩ ⟨0, [], []⟩ =
      Except.error 3 :=
  ⟨(sidecar_failure_soft ⟨5, true, Except.ok (), Except.ok (), Except.error 9⟩
      ⟨0, [], []⟩).1 9 rfl rfl rfl rfl,
   (sidecar_failure_soft ⟨6, true, Except.error 3, Except.ok (), Except.ok ()⟩
      ⟨0, [], []⟩).2.1 3 rfl rfl⟩

end Annota
